import Mathlib

/-
Verification development for the simple-crowdfund pallet
(src/pallets/simple-crowdfund/src/lib.rs).

The pallet is embedded shallowly:

* The balance type is generic in the source; a release build wraps on plain
  addition and `saturating_add` clamps at the numeric maximum.  Balances are
  modelled as natural numbers together with an explicit bit width `w`
  (a `Config` field): plain Rust `+` on balances becomes `wrap w`, and
  `saturating_add` becomes `satAdd w`.  Rust subtraction appearing only as
  `saturating_sub` becomes truncated Nat subtraction.
* `FundIndex` is fixed to `u32` by the source, so the fund counter update
  `FundCount::put(index + 1)` wraps modulo `2 ^ 32` (the source comments that
  this addition is "not protected against overflow").
* Block numbers are an abstract monotone counter; nothing in the source or in
  the pallet configuration bounds them, so they are modelled as `Nat`.
* The child-trie holding one campaign's contributions is an association list
  keyed by contributor; `child::get_or_default` yields `0` for an absent key.
* The external `Currency` ledger primitive is modelled from the spec:
  an account-indexed balance map, where `withdraw`/`transfer` fail exactly
  when the source account cannot cover the amount, and
  `resolve_creating`/`resolve_into_existing` credit the destination.
* Each dispatchable returns `Except DispatchError PalletState`.  In the
  source every `ensure!` and every fallible `?` call precedes the first
  storage write of its dispatchable, so an error return leaves storage
  untouched; the embedding mirrors this by returning the error without a
  state (the pre-state persists, see `applyResult`).
-/

namespace SimpleCrowdfund

/-- Account identifiers.  `user n` is an ordinary signed account; `fund i` is
the custodial account derived by `fund_account_id` (in the source
`PALLET_ID.into_sub_account(index)`, an injective derivation into a region
disjoint from ordinary accounts, modelled by a separate constructor). -/
inductive AccountId where
  | user (n : Nat)
  | fund (i : Nat)
deriving DecidableEq

/-- The campaign record (source struct `FundInfo`, lines 55-68).  The Rust
field `end` is a Lean keyword and is rendered `end_`. -/
structure FundInfo where
  owner : AccountId
  deposit : Nat
  raised : Nat
  start : Nat
  end_ : Nat
  cap : Nat
deriving DecidableEq

/-- Runtime constants of the pallet `Trait`, plus the bit width `w` of the
balance type. -/
structure Config where
  w : Nat
  submissionDeposit : Nat
  minContribution : Nat
  retirementPeriod : Nat

/-- Result of the balance type's plain (wrapping) addition or of any
expression that must fit the balance type: reduction modulo `2 ^ w`. -/
def wrap (w a : Nat) : Nat := a % 2 ^ w

/-- The balance type's `saturating_add`: clamps at the maximum `2 ^ w - 1`. -/
def satAdd (w a b : Nat) : Nat := min (a + b) (2 ^ w - 1)

/-- Dispatch errors.  Constructors are named after the source's `ensure!`
message strings; `currencyError` stands for any error propagated from the
external `Currency` primitive. -/
inductive DispatchError where
  | mustStartBeforeItEnds
  | endMustBeInTheFuture
  | contributionTooSmall
  | invalidFundIndex
  | contributionPeriodEnded
  | contributionsExceedCap
  | noMoreWithdrawals
  | noContributionsStored
  | retirementPeriodNotOver
  | currencyError
deriving DecidableEq

/-- The spec's `InvalidWindow` error class groups the two window checks of
`create` (source lines 110-111). -/
def DispatchError.isInvalidWindow : DispatchError → Bool
  | .mustStartBeforeItEnds => true
  | .endMustBeInTheFuture => true
  | _ => false

/-- Events of the pallet (source `decl_event!`, lines 81-93). -/
inductive Event where
  | Created (index : Nat) (now : Nat)
  | Contributed (who : AccountId) (index : Nat) (balance : Nat) (now : Nat)
  | Withdrew (who : AccountId) (index : Nat) (balance : Nat) (now : Nat)
  | Retiring (index : Nat) (now : Nat)
  | Dissolved (index : Nat) (now : Nat) (reporter : AccountId)
deriving DecidableEq

/-- One campaign's child-trie: an association list from contributor to
stored balance (keys unique by construction of the update operations). -/
abbrev ChildTrie := List (AccountId × Nat)

/-- Modelled from the spec (PartitionedStore `put`): insert or overwrite the
entry for a key, source `child::put`. -/
def child_put : ChildTrie → AccountId → Nat → ChildTrie
  | [], k, v => [(k, v)]
  | e :: rest, k, v => if e.1 = k then (k, v) :: rest else e :: child_put rest k v

/-- Modelled from the spec (PartitionedStore `get`): first entry stored under
a key, if any. -/
def child_get : ChildTrie → AccountId → Option Nat
  | [], _ => none
  | e :: rest, k => if e.1 = k then some e.2 else child_get rest k

/-- Modelled from the spec (PartitionedStore): `child::get_or_default`,
absent keys yield the zero balance. -/
def child_get_or_default (t : ChildTrie) (k : AccountId) : Nat :=
  (child_get t k).getD 0

/-- Modelled from the spec (PartitionedStore `delete`): remove every entry
stored under a key, source `child::kill`. -/
def child_kill : ChildTrie → AccountId → ChildTrie
  | [], _ => []
  | e :: rest, k => if e.1 = k then child_kill rest k else e :: child_kill rest k

/-- Sum of all contribution entries of one campaign's partition. -/
def partition_sum (t : ChildTrie) : Nat :=
  (t.map Prod.snd).sum

/-- Modelled from the spec (LedgerPrimitive): debit an account, used for the
effect of a successful `Currency::withdraw`. -/
def debit (bal : AccountId → Nat) (a : AccountId) (v : Nat) : AccountId → Nat :=
  fun x => if x = a then bal a - v else bal x

/-- Modelled from the spec (LedgerPrimitive): credit an account, used for
`resolve_creating` and `resolve_into_existing`. -/
def credit (bal : AccountId → Nat) (a : AccountId) (v : Nat) : AccountId → Nat :=
  fun x => if x = a then bal a + v else bal x

/-- Modelled from the spec (LedgerPrimitive): effect of a successful
`Currency::transfer`. -/
def transfer (bal : AccountId → Nat) (src dst : AccountId) (v : Nat) :
    AccountId → Nat :=
  credit (debit bal src v) dst v

/-- Full persisted state: the `Funds` map, the `FundCount` counter, one child
trie per fund index, the external ledger balances, and the emitted events. -/
structure PalletState where
  funds : Nat → Option FundInfo
  fund_count : Nat
  tries : Nat → ChildTrie
  balances : AccountId → Nat
  events : List Event

/-- Source `fund_account_id` (lines 236-238): the custodial account of a
fund, derived deterministically from its index. -/
def fund_account_id (index : Nat) : AccountId :=
  AccountId.fund index

/-- Little-endian byte encoding of a `u32`, source `index.to_le_bytes()`. -/
def le_bytes (n : Nat) : List Nat :=
  [n % 256, n / 256 % 256, n / 65536 % 256, n / 16777216 % 256]

/-- The fixed domain-separation bytes b"crowdfnd" (source line 244). -/
def crowdfnd_bytes : List Nat :=
  [99, 114, 111, 119, 100, 102, 110, 100]

/-- The buffer hashed by `id_from_index` (source lines 243-245):
b"crowdfnd" followed by the little-endian index bytes. -/
def crowdfnd_buf (index : Nat) : List Nat :=
  crowdfnd_bytes ++ le_bytes index

/-- Source `id_from_index` (lines 242-248): the child-trie identifier is the
hash of `crowdfnd_buf`.  The hasher `T::Hashing` is a type parameter of the
pallet and is passed here as a function argument. -/
def id_from_index (hash : List Nat → List Nat) (index : Nat) : List Nat :=
  hash (crowdfnd_buf index)

/-- Source dispatchable `create` (lines 100-139).  Check order as in the
source: the two window `ensure!`s, then the deposit withdrawal (fallible),
then the counter read and (wrapping, u32) increment, then `resolve_creating`
into the custodial account, then the record insert and the event. -/
def create (cfg : Config) (st : PalletState) (owner : AccountId)
    (cap : Nat) (start end_ now : Nat) :
    Except DispatchError PalletState :=
  if start < end_ then
    if now < end_ then
      if cfg.submissionDeposit ≤ st.balances owner then
        .ok { st with
          funds := fun j => if j = st.fund_count then
              some { owner := owner, deposit := cfg.submissionDeposit, raised := 0,
                     start := start, end_ := end_, cap := cap }
            else st.funds j,
          fund_count := wrap 32 (st.fund_count + 1),
          balances := credit (debit st.balances owner cfg.submissionDeposit)
              (fund_account_id st.fund_count) cfg.submissionDeposit,
          events := st.events ++ [Event.Created st.fund_count now] }
      else .error .currencyError
    else .error .endMustBeInTheFuture
  else .error .mustStartBeforeItEnds

/-- Source dispatchable `contribute` (lines 142-163).  Check order as in the
source: minimum size, fund lookup, window (`fund.end > now`), cap
(`fund.raised + value < fund.cap`, the addition performed in the balance
type, hence `wrap`), then the currency transfer (fallible), then the
child-trie update with `saturating_add` and the event.  Note: line 156 of the
source updates `fund.raised` only in the local variable `fund`; the updated
record is never written back to the `Funds` storage map (unlike `withdraw`,
which ends with a `Funds::insert`), so the persisted record is unchanged by a
successful `contribute`.  The embedding reproduces this faithfully. -/
def contribute (cfg : Config) (st : PalletState) (who : AccountId)
    (index : Nat) (value : Nat) (now : Nat) :
    Except DispatchError PalletState :=
  if cfg.minContribution ≤ value then
    match st.funds index with
    | none => .error .invalidFundIndex
    | some fund =>
      if now < fund.end_ then
        if wrap cfg.w (fund.raised + value) < fund.cap then
          if value ≤ st.balances who then
            .ok { st with
              balances := transfer st.balances who (fund_account_id index) value,
              tries := fun j => if j = index then
                  child_put (st.tries index) who
                    (satAdd cfg.w (child_get_or_default (st.tries index) who) value)
                else st.tries j,
              events := st.events ++
                [Event.Contributed who index
                  (satAdd cfg.w (child_get_or_default (st.tries index) who) value) now] }
          else .error .currencyError
        else .error .contributionsExceedCap
      else .error .contributionPeriodEnded
  else .error .contributionTooSmall

/-- Source dispatchable `withdraw` (lines 166-193).  Check order as in the
source: fund lookup, window (`fund.end < now`), stored balance must be
positive, custodial withdrawal (fallible), then the child-trie entry is
killed, `raised` is decreased with `saturating_sub` (truncated Nat
subtraction) and the record is written back. -/
def withdraw (_cfg : Config) (st : PalletState) (who : AccountId)
    (index : Nat) (now : Nat) :
    Except DispatchError PalletState :=
  match st.funds index with
  | none => .error .invalidFundIndex
  | some fund =>
    if fund.end_ < now then
      if 0 < child_get_or_default (st.tries index) who then
        if child_get_or_default (st.tries index) who ≤ st.balances (fund_account_id index) then
          .ok { st with
            funds := fun j => if j = index then
                some { fund with
                  raised := fund.raised - child_get_or_default (st.tries index) who }
              else st.funds j,
            tries := fun j => if j = index then child_kill (st.tries index) who
              else st.tries j,
            balances := transfer st.balances (fund_account_id index) who
              (child_get_or_default (st.tries index) who),
            events := st.events ++
              [Event.Withdrew who index (child_get_or_default (st.tries index) who) now] }
        else .error .currencyError
      else .error .noContributionsStored
    else .error .noMoreWithdrawals

/-- Source dispatchable `dissolve` (lines 198-225).  Check order as in the
source: fund lookup, retirement check (`now >= fund.end + RetirementPeriod`),
custodial withdrawal of `fund.deposit + fund.raised` (a plain balance-type
addition, hence `wrap`; fallible), then the record is removed, the whole
child trie is killed (`crowdfund_kill`) and the event is emitted. -/
def dissolve (cfg : Config) (st : PalletState) (reporter : AccountId)
    (index : Nat) (now : Nat) :
    Except DispatchError PalletState :=
  match st.funds index with
  | none => .error .invalidFundIndex
  | some fund =>
    if fund.end_ + cfg.retirementPeriod ≤ now then
      if wrap cfg.w (fund.deposit + fund.raised) ≤ st.balances (fund_account_id index) then
        .ok { st with
          funds := fun j => if j = index then none else st.funds j,
          tries := fun j => if j = index then [] else st.tries j,
          balances := transfer st.balances (fund_account_id index) reporter
            (wrap cfg.w (fund.deposit + fund.raised)),
          events := st.events ++ [Event.Dissolved index now reporter] }
      else .error .currencyError
    else .error .retirementPeriodNotOver

/-- State resulting from a dispatch: an error leaves storage untouched. -/
def applyResult (st : PalletState) : Except DispatchError PalletState → PalletState
  | .ok st1 => st1
  | .error _ => st

/-- One `create` call's arguments (with its block number). -/
structure CreateCall where
  owner : AccountId
  cap : Nat
  start : Nat
  end_ : Nat
  now : Nat

/-- Run a sequence of `create` calls, returning the final state and the
number of calls that succeeded. -/
def run_and_count (cfg : Config) (st : PalletState) :
    List CreateCall → PalletState × Nat
  | [] => (st, 0)
  | c :: rest =>
    match create cfg st c.owner c.cap c.start c.end_ c.now with
    | .ok st1 =>
      let r := run_and_count cfg st1 rest
      (r.1, r.2 + 1)
    | .error _ => run_and_count cfg st rest

/-- Observation: did the dispatch succeed. -/
def obs_isOk : Except DispatchError PalletState → Bool
  | .ok _ => true
  | .error _ => false

/-- Observation: the dispatch error, if any. -/
def obs_error : Except DispatchError PalletState → Option DispatchError
  | .ok _ => none
  | .error e => some e

/-- Observation: `raised` of the persisted record `funds index` after a
successful dispatch. -/
def obs_raised : Except DispatchError PalletState → Nat → Option Nat
  | .ok st, index => (st.funds index).map FundInfo.raised
  | .error _, _ => none

/-- Observation: the persisted record at an index after a successful
dispatch. -/
def obs_fund : Except DispatchError PalletState → Nat → Option (Option FundInfo)
  | .ok st, index => some (st.funds index)
  | .error _, _ => none

/-- Observation: a contributor's child-trie entry after a successful
dispatch. -/
def obs_entry : Except DispatchError PalletState → Nat → AccountId → Option (Option Nat)
  | .ok st, index, who => some (child_get (st.tries index) who)
  | .error _, _, _ => none

/-- Observation: the sum of one partition's entries after a successful
dispatch. -/
def obs_sum : Except DispatchError PalletState → Nat → Option Nat
  | .ok st, index => some (partition_sum (st.tries index))
  | .error _, _ => none

/-- Observation: one partition's full contents after a successful
dispatch. -/
def obs_trie : Except DispatchError PalletState → Nat → Option ChildTrie
  | .ok st, index => some (st.tries index)
  | .error _, _ => none

/-- Observation: the fund counter after a successful dispatch. -/
def obs_count : Except DispatchError PalletState → Option Nat
  | .ok st => some st.fund_count
  | .error _ => none

/-- Observation: the emitted event list after a successful dispatch. -/
def obs_events : Except DispatchError PalletState → Option (List Event)
  | .ok st => some st.events
  | .error _ => none

/-- A small concrete configuration: 32-bit balances, submission deposit 10,
minimum contribution 1, retirement period 5. -/
def cfg3 : Config :=
  { w := 32, submissionDeposit := 10, minContribution := 1, retirementPeriod := 5 }

/-- Fresh chain state: no funds, counter 0, every account holding 1000. -/
def init_state : PalletState :=
  { funds := fun _ => none, fund_count := 0, tries := fun _ => [],
    balances := fun _ => 1000, events := [] }

/-- A successful `create` (cap 100, window 0..10, at block 1) followed by a
successful `contribute` of 5 by user 2 at block 5. -/
def bugRun : Except DispatchError PalletState :=
  (create cfg3 init_state (AccountId.user 1) 100 0 10 1).bind
    (fun st1 => contribute cfg3 st1 (AccountId.user 2) 0 5 5)

/-- A campaign one unit below a cap equal to the balance-type maximum:
`raised = 2 ^ 32 - 2`, `cap = 2 ^ 32 - 1`, window 0..10. -/
def fund_ovf : FundInfo :=
  { owner := AccountId.user 1, deposit := 10, raised := 4294967294,
    start := 0, end_ := 10, cap := 4294967295 }

/-- State holding `fund_ovf` at index 0. -/
def st_ovf : PalletState :=
  { funds := fun j => if j = 0 then some fund_ovf else none, fund_count := 1,
    tries := fun _ => [], balances := fun _ => 1000, events := [] }

/-- Fresh state whose fund counter sits at the `u32` maximum. -/
def st_max : PalletState :=
  { funds := fun _ => none, fund_count := 4294967295, tries := fun _ => [],
    balances := fun _ => 1000, events := [] }

/-- An open campaign that has not started yet at block 2: window 4..10. -/
def fund10 : FundInfo :=
  { owner := AccountId.user 1, deposit := 10, raised := 0,
    start := 4, end_ := 10, cap := 100 }

/-- State holding `fund10` at index 0. -/
def st10 : PalletState :=
  { funds := fun j => if j = 0 then some fund10 else none, fund_count := 1,
    tries := fun _ => [], balances := fun _ => 1000, events := [] }

/-- An ended campaign (window 0..10) with one stored contribution of 30 by
user 2 and a custodial balance of 40 (= deposit 10 + raised 30). -/
def fund7 : FundInfo :=
  { owner := AccountId.user 1, deposit := 10, raised := 30,
    start := 0, end_ := 10, cap := 100 }

/-- State holding `fund7` at index 0, with user 2's entry in its child trie
and the matching custodial balance. -/
def st7 : PalletState :=
  { funds := fun j => if j = 0 then some fund7 else none, fund_count := 1,
    tries := fun j => if j = 0 then [(AccountId.user 2, 30)] else [],
    balances := fun a => if a = fund_account_id 0 then 40 else 1000,
    events := [] }

/-- Two `create` calls: a valid one (window 0..10 at block 1) and an invalid
one (`start = end`), used to exercise `run_and_count`. -/
def c6calls : List CreateCall :=
  [{ owner := AccountId.user 1, cap := 100, start := 0, end_ := 10, now := 1 },
   { owner := AccountId.user 1, cap := 100, start := 5, end_ := 5, now := 1 }]

/-- Replace the `start` field of the record stored at `index` by `s`,
leaving every other component of the state unchanged. -/
def set_start (st : PalletState) (index : Nat) (fund : FundInfo)
    (s : Nat) : PalletState :=
  { st with funds := fun j => if j = index then some { fund with start := s }
      else st.funds j }

/- ------------------------------------------------------------------ -/
/- Helper lemmas about the child-trie operations and the dispatchables. -/
/- ------------------------------------------------------------------ -/

/-- Looking up a key just written by `child_put` yields the written value. -/
theorem child_get_put (t : ChildTrie) (k : AccountId) (v : Nat) :
    child_get (child_put t k v) k = some v := by
  induction t with
  | nil => simp [child_put, child_get]
  | cons e rest ih =>
    by_cases he : e.1 = k
    · simp [child_put, he, child_get]
    · simp [child_put, he, child_get, ih]

/-- After `child_kill` the key is entirely absent, not merely zeroed. -/
theorem child_get_kill (t : ChildTrie) (k : AccountId) :
    child_get (child_kill t k) k = none := by
  induction t with
  | nil => rfl
  | cons e rest ih =>
    by_cases he : e.1 = k
    · simp [child_kill, he, ih]
    · simp [child_kill, he, child_get, ih]

/-- `child::get_or_default` after `child_kill` yields the default zero. -/
theorem child_get_or_default_kill (t : ChildTrie) (k : AccountId) :
    child_get_or_default (child_kill t k) k = 0 := by
  simp [child_get_or_default, child_get_kill]

/-- Under the minimum-size, existence and window checks, `contribute` fails
with the cap error exactly when the wrapped balance-type sum
`(raised + value) mod 2 ^ w` is not strictly below the cap. -/
theorem contribute_cap_iff (cfg : Config) (st : PalletState) (who : AccountId)
    (index : Nat) (value : Nat) (now : Nat) (fund : FundInfo)
    (hf : st.funds index = some fund) (hmin : cfg.minContribution ≤ value)
    (hwin : now < fund.end_) :
    obs_error (contribute cfg st who index value now)
        = some DispatchError.contributionsExceedCap
      ↔ fund.cap ≤ wrap cfg.w (fund.raised + value) := by
  constructor
  · intro he
    by_contra hcap
    push_neg at hcap
    by_cases hbal : value ≤ st.balances who
    · simp [contribute, hf, hmin, hwin, hcap, hbal, obs_error] at he
    · simp [contribute, hf, hmin, hwin, hcap, hbal, obs_error] at he
  · intro hcap
    have hcap2 : ¬ wrap cfg.w (fund.raised + value) < fund.cap := not_lt.mpr hcap
    simp [contribute, hf, hmin, hwin, hcap2, obs_error]

/-- On a successful `contribute` the requester's partition entry is the
previous entry (default zero) plus the value, added with `saturating_add`. -/
theorem contribute_entry_sat (cfg : Config) (st : PalletState) (who : AccountId)
    (index : Nat) (value : Nat) (now : Nat) (fund : FundInfo)
    (hf : st.funds index = some fund) (hmin : cfg.minContribution ≤ value)
    (hwin : now < fund.end_) (hcap : wrap cfg.w (fund.raised + value) < fund.cap)
    (hbal : value ≤ st.balances who) :
    obs_entry (contribute cfg st who index value now) index who
      = some (some (satAdd cfg.w (child_get_or_default (st.tries index) who) value)) := by
  simp [contribute, hf, hmin, hwin, hcap, hbal, obs_entry, child_get_put]

/-- A successful `create` stores the wrapped successor of the counter. -/
theorem create_fund_count (cfg : Config) (st : PalletState) (owner : AccountId)
    (cap : Nat) (start end_ now : Nat) (st1 : PalletState)
    (h : create cfg st owner cap start end_ now = .ok st1) :
    st1.fund_count = wrap 32 (st.fund_count + 1) := by
  unfold create at h
  split at h
  · split at h
    · split at h
      · simp only [Except.ok.injEq] at h
        rw [← h]
      · exact Except.noConfusion h
    · exact Except.noConfusion h
  · exact Except.noConfusion h

/- ------------------------------------------------------------------ -/
/- Claim theorems.                                                     -/
/- ------------------------------------------------------------------ -/

/-- C1: after a successful create/contribute sequence the sum of the
campaign's partition entries is 5, but `funds 0` still reports `raised = 0`:
the source's `contribute` never writes the updated record back to the `Funds`
map (there is no `Funds::insert` in lines 143-163, unlike `withdraw`), so the
claimed invariant fails after the very first contribution. -/
theorem c1_partition_sum_vs_raised :
    obs_isOk bugRun = true
  ∧ obs_sum bugRun 0 = some 5
  ∧ obs_raised bugRun 0 = some 0 := by decide

/-- C2: on the same successful `contribute`, the requester's partition entry
is written as its previous value plus the value (0 + 5 = 5) and the
`Contributed` event carries the new cumulative balance 5, but the persisted
campaign record is not updated: a subsequent `funds 0` query still returns
`raised = 0` instead of the incremented 5. -/
theorem c2_contribute_no_persist :
    obs_entry bugRun 0 (AccountId.user 2) = some (some 5)
  ∧ obs_raised bugRun 0 = some 0
  ∧ obs_events bugRun =
      some [Event.Created 0 1, Event.Contributed (AccountId.user 2) 0 5 5] := by decide

/-- C3, counterexample: the additions into `raised` are not saturating.  With
32-bit balances, `raised = 4294967294` and `value = 4`, the cap-check
addition `fund.raised + value` (source line 154, plain balance-type addition)
wraps to 2, which is below the cap 4294967295, so the check passes and the
contribution succeeds even though the mathematical sum exceeds the cap: an
overflowing `raised + value` wraps to a small number that passes the `< cap`
check, refuting the claim. -/
theorem c3_wrapping_counterexample :
    obs_isOk (contribute cfg3 st_ovf (AccountId.user 2) 0 4 5) = true
  ∧ wrap 32 (4294967294 + 4) = 2
  ∧ wrap 32 (4294967294 + 4) ≠ 4294967294 + 4
  ∧ wrap 32 (4294967294 + 4) < fund_ovf.cap
  ∧ fund_ovf.cap ≤ 4294967294 + 4 := by decide

/-- C3, amended: in `contribute` only the addition into the contributor's
partition balance is saturating (`saturating_add`, source line 159); the
cap-check addition `raised + value` (source line 154) is the balance type's
plain wrapping addition, so the cap test compares `(raised + value) mod 2^w`
with the cap and an overflowing sum can wrap and pass the `< cap` check. -/
theorem c3_amended_saturation (cfg : Config) (st : PalletState) (who : AccountId)
    (index : Nat) (value : Nat) (now : Nat) (fund : FundInfo)
    (hf : st.funds index = some fund) (hmin : cfg.minContribution ≤ value)
    (hwin : now < fund.end_) :
    (obs_error (contribute cfg st who index value now)
        = some DispatchError.contributionsExceedCap
      ↔ fund.cap ≤ wrap cfg.w (fund.raised + value))
  ∧ (wrap cfg.w (fund.raised + value) < fund.cap → value ≤ st.balances who →
      obs_entry (contribute cfg st who index value now) index who
        = some (some (satAdd cfg.w (child_get_or_default (st.tries index) who) value))) :=
  ⟨contribute_cap_iff cfg st who index value now fund hf hmin hwin,
   fun hcap hbal => contribute_entry_sat cfg st who index value now fund hf hmin hwin hcap hbal⟩

/-- C3, amended, witness at a concrete input: configuration `cfg3`, state
`st_ovf`, contributor user 2, value 4 at block 5. -/
theorem c3_amended_saturation_witness :
    st_ovf.funds 0 = some fund_ovf
  ∧ cfg3.minContribution ≤ 4
  ∧ (5 : Nat) < fund_ovf.end_
  ∧ ((obs_error (contribute cfg3 st_ovf (AccountId.user 2) 0 4 5)
        = some DispatchError.contributionsExceedCap
      ↔ fund_ovf.cap ≤ wrap cfg3.w (fund_ovf.raised + 4))
     ∧ (wrap cfg3.w (fund_ovf.raised + 4) < fund_ovf.cap →
        4 ≤ st_ovf.balances (AccountId.user 2) →
        obs_entry (contribute cfg3 st_ovf (AccountId.user 2) 0 4 5) 0 (AccountId.user 2)
          = some (some (satAdd cfg3.w
              (child_get_or_default (st_ovf.tries 0) (AccountId.user 2)) 4)))) :=
  ⟨by decide, by decide, by decide,
   c3_amended_saturation cfg3 st_ovf (AccountId.user 2) 0 4 5 fund_ovf
     (by decide) (by decide) (by decide)⟩

/-- C4, counterexample: with `raised = 4294967294`, `value = 3` and
`cap = 4294967295` (32-bit balances), the minimum-size, existence and window
checks pass and `raised + value ≥ cap` holds mathematically, yet `contribute`
does not fail with the cap error — it succeeds, because the source compares
the wrapped balance-type sum `(raised + value) mod 2 ^ 32 = 1` against the
cap.  This refutes the claimed equivalence as stated. -/
theorem c4_cap_check_counterexample :
    obs_isOk (contribute cfg3 st_ovf (AccountId.user 3) 0 3 5) = true
  ∧ obs_error (contribute cfg3 st_ovf (AccountId.user 3) 0 3 5) = none
  ∧ fund_ovf.cap ≤ 4294967294 + 3 := by decide

/-- C4, amended: under the minimum-size, existence and window checks,
`contribute` fails with the cap error exactly when the wrapped balance-type
sum `(raised + value) mod 2 ^ w` reaches the cap; whenever `raised + value`
does not overflow the balance type this is exactly `raised + value ≥ cap`
(so a contribution making the sum equal to the cap is rejected), and at
`raised + value = cap - 1` the cap check passes (the boundary is a strict
`<`). -/
theorem c4_amended_cap_boundary (cfg : Config) (st : PalletState) (who : AccountId)
    (index : Nat) (value : Nat) (now : Nat) (fund : FundInfo)
    (hf : st.funds index = some fund) (hmin : cfg.minContribution ≤ value)
    (hwin : now < fund.end_) :
    (obs_error (contribute cfg st who index value now)
        = some DispatchError.contributionsExceedCap
      ↔ fund.cap ≤ wrap cfg.w (fund.raised + value))
  ∧ (fund.raised + value < 2 ^ cfg.w →
      (obs_error (contribute cfg st who index value now)
          = some DispatchError.contributionsExceedCap
        ↔ fund.cap ≤ fund.raised + value))
  ∧ (fund.raised + value + 1 = fund.cap → fund.cap < 2 ^ cfg.w →
      obs_error (contribute cfg st who index value now)
        ≠ some DispatchError.contributionsExceedCap) := by
  have hiff := contribute_cap_iff cfg st who index value now fund hf hmin hwin
  refine ⟨hiff, ?_, ?_⟩
  · intro hlt
    rw [hiff]
    unfold wrap
    rw [Nat.mod_eq_of_lt hlt]
  · intro hsum hcaplt he
    rw [hiff] at he
    unfold wrap at he
    rw [Nat.mod_eq_of_lt (by omega)] at he
    omega

/-- C4, amended, witness at a concrete input: configuration `cfg3`, state
`st7` (raised 30, cap 100), contributor user 3, value 69 at block 5, so that
`raised + value = 99 = cap - 1`. -/
theorem c4_amended_cap_boundary_witness :
    st7.funds 0 = some fund7
  ∧ cfg3.minContribution ≤ 69
  ∧ (5 : Nat) < fund7.end_
  ∧ ((obs_error (contribute cfg3 st7 (AccountId.user 3) 0 69 5)
        = some DispatchError.contributionsExceedCap
      ↔ fund7.cap ≤ wrap cfg3.w (fund7.raised + 69))
     ∧ (fund7.raised + 69 < 2 ^ cfg3.w →
        (obs_error (contribute cfg3 st7 (AccountId.user 3) 0 69 5)
            = some DispatchError.contributionsExceedCap
          ↔ fund7.cap ≤ fund7.raised + 69))
     ∧ (fund7.raised + 69 + 1 = fund7.cap → fund7.cap < 2 ^ cfg3.w →
        obs_error (contribute cfg3 st7 (AccountId.user 3) 0 69 5)
          ≠ some DispatchError.contributionsExceedCap)) :=
  ⟨by decide, by decide, by decide,
   c4_amended_cap_boundary cfg3 st7 (AccountId.user 3) 0 69 5 fund7
     (by decide) (by decide) (by decide)⟩

/-- C5: whenever `start ≥ end` or `end ≤ now`, `create` fails with one of the
two window errors (the spec's `InvalidWindow` class) and mutates nothing:
the pre-state persists unchanged, so the fund counter is unchanged, no
record is inserted and no deposit is withdrawn. -/
theorem c5_create_invalid_window (cfg : Config) (st : PalletState)
    (owner : AccountId) (cap : Nat) (start end_ now : Nat)
    (h : end_ ≤ start ∨ end_ ≤ now) :
    DispatchError.isInvalidWindow
      ((obs_error (create cfg st owner cap start end_ now)).getD
        DispatchError.currencyError) = true
  ∧ (end_ ≤ start →
      create cfg st owner cap start end_ now = .error .mustStartBeforeItEnds)
  ∧ (start < end_ → end_ ≤ now →
      create cfg st owner cap start end_ now = .error .endMustBeInTheFuture)
  ∧ applyResult st (create cfg st owner cap start end_ now) = st := by
  by_cases hse : start < end_
  · have hnow : end_ ≤ now := by
      rcases h with h | h
      · omega
      · exact h
    have hc : create cfg st owner cap start end_ now = .error .endMustBeInTheFuture := by
      unfold create
      rw [if_pos hse, if_neg (by omega)]
    refine ⟨?_, ?_, ?_, ?_⟩
    · rw [hc]; rfl
    · intro h1; omega
    · intro _ _; exact hc
    · rw [hc]; rfl
  · have hc : create cfg st owner cap start end_ now = .error .mustStartBeforeItEnds := by
      unfold create
      rw [if_neg hse]
    refine ⟨?_, ?_, ?_, ?_⟩
    · rw [hc]; rfl
    · intro _; exact hc
    · intro h1 _; exact absurd h1 hse
    · rw [hc]; rfl

/-- C5, witness at a concrete input: `create` with `start = end = 5` at block
0 on the fresh state. -/
theorem c5_create_invalid_window_witness :
    ((5 : Nat) ≤ 5 ∨ (5 : Nat) ≤ 0)
  ∧ (DispatchError.isInvalidWindow
      ((obs_error (create cfg3 init_state (AccountId.user 1) 100 5 5 0)).getD
        DispatchError.currencyError) = true
     ∧ ((5 : Nat) ≤ 5 →
        create cfg3 init_state (AccountId.user 1) 100 5 5 0
          = .error .mustStartBeforeItEnds)
     ∧ ((5 : Nat) < 5 → (5 : Nat) ≤ 0 →
        create cfg3 init_state (AccountId.user 1) 100 5 5 0
          = .error .endMustBeInTheFuture)
     ∧ applyResult init_state (create cfg3 init_state (AccountId.user 1) 100 5 5 0)
         = init_state) :=
  ⟨Or.inl (by decide),
   c5_create_invalid_window cfg3 init_state (AccountId.user 1) 100 5 5 0
     (Or.inl (by decide))⟩

/-- C6, counterexample: a successful `create` from counter value 4294967295
leaves the counter at 0, not at 4294967295 + 1: the source stores `index + 1`
in the `u32` storage item `FundCount` (with the comment "not protected
against overflow"), so the counter wraps modulo `2 ^ 32` and the claimed
equality "initial value plus the number of successful creates" fails at this
initial counter value. -/
theorem c6_counter_wrap_counterexample :
    obs_isOk (create cfg3 st_max (AccountId.user 1) 100 0 10 1) = true
  ∧ obs_count (create cfg3 st_max (AccountId.user 1) 100 0 10 1) = some 0
  ∧ (0 : Nat) ≠ 4294967295 + 1 := by decide

/-- C6, amended: for every initial state whose counter is a `u32` value and
every sequence of `create` calls, the final counter equals the initial value
plus the number of successful creates, reduced modulo `2 ^ 32`: each
successful `create` advances the counter by one modulo `2 ^ 32` and each
failed `create` (invalid window or failed deposit withdrawal) leaves it
unchanged. -/
theorem c6_amended_fund_count (cfg : Config) (st : PalletState)
    (cs : List CreateCall) (h : st.fund_count < 2 ^ 32) :
    (run_and_count cfg st cs).1.fund_count
      = wrap 32 (st.fund_count + (run_and_count cfg st cs).2) := by
  induction cs generalizing st with
  | nil =>
    show st.fund_count = wrap 32 (st.fund_count + 0)
    rw [Nat.add_zero]
    unfold wrap
    exact (Nat.mod_eq_of_lt h).symm
  | cons c rest ih =>
    cases hc : create cfg st c.owner c.cap c.start c.end_ c.now with
    | error e =>
      simpa [run_and_count, hc] using ih st h
    | ok st1 =>
      have h1 : st1.fund_count = wrap 32 (st.fund_count + 1) :=
        create_fund_count cfg st c.owner c.cap c.start c.end_ c.now st1 hc
      have h1lt : st1.fund_count < 2 ^ 32 := by
        rw [h1]
        exact Nat.mod_lt _ (by positivity)
      have hrec := ih st1 h1lt
      simp only [run_and_count, hc]
      rw [hrec, h1]
      unfold wrap
      rw [Nat.mod_add_mod]
      congr 1
      omega

/-- C6, amended, witness at a concrete input: the fresh state and the two
calls of `c6calls` (one successful, one with an invalid window). -/
theorem c6_amended_fund_count_witness :
    init_state.fund_count < 2 ^ 32
  ∧ (run_and_count cfg3 init_state c6calls).1.fund_count
      = wrap 32 (init_state.fund_count + (run_and_count cfg3 init_state c6calls).2) :=
  ⟨by decide, c6_amended_fund_count cfg3 init_state c6calls (by decide)⟩

/-- C7: with an existing campaign, `withdraw` fails while the current block
is at or before `end`; with the window open it fails with the
no-contribution error when the requester's stored balance is zero; if the
custodial ledger withdrawal fails nothing is mutated; and on success the
requester's partition entry is deleted entirely (absent, not zeroed),
`raised` is decreased by the withdrawn balance with truncated (saturating)
subtraction, and a second `withdraw` by the same contributor without an
intervening `contribute` fails with the no-contribution error. -/
theorem c7_withdraw_behaviour (cfg : Config) (st : PalletState) (who : AccountId)
    (index now : Nat) (fund : FundInfo) (hf : st.funds index = some fund) :
    (now ≤ fund.end_ → withdraw cfg st who index now = .error .noMoreWithdrawals)
  ∧ (fund.end_ < now → child_get_or_default (st.tries index) who = 0 →
      withdraw cfg st who index now = .error .noContributionsStored)
  ∧ (fund.end_ < now → 0 < child_get_or_default (st.tries index) who →
      st.balances (fund_account_id index) < child_get_or_default (st.tries index) who →
      withdraw cfg st who index now = .error .currencyError
      ∧ applyResult st (withdraw cfg st who index now) = st)
  ∧ (fund.end_ < now → 0 < child_get_or_default (st.tries index) who →
      child_get_or_default (st.tries index) who ≤ st.balances (fund_account_id index) →
      obs_isOk (withdraw cfg st who index now) = true
      ∧ obs_entry (withdraw cfg st who index now) index who = some none
      ∧ obs_raised (withdraw cfg st who index now) index
          = some (fund.raised - child_get_or_default (st.tries index) who)
      ∧ withdraw cfg (applyResult st (withdraw cfg st who index now)) who index now
          = .error .noContributionsStored) := by
  refine ⟨?_, ?_, ?_, ?_⟩
  · intro h1
    have h2 : ¬ fund.end_ < now := by omega
    simp [withdraw, hf, h2]
  · intro h1 h2
    simp [withdraw, hf, h1, h2]
  · intro h1 h2 h3
    have h4 : ¬ child_get_or_default (st.tries index) who
        ≤ st.balances (fund_account_id index) := by omega
    constructor
    · simp [withdraw, hf, h1, h2, h4]
    · simp [withdraw, hf, h1, h2, h4, applyResult]
  · intro h1 h2 h3
    refine ⟨?_, ?_, ?_, ?_⟩
    · simp [withdraw, hf, h1, h2, h3, obs_isOk]
    · simp [withdraw, hf, h1, h2, h3, obs_entry, child_get_kill]
    · simp [withdraw, hf, h1, h2, h3, obs_raised]
    · simp [withdraw, hf, h1, h2, h3, applyResult, child_get_or_default_kill]

/-- C7, witness at a concrete input: state `st7` (campaign over at block 10,
user 2 holding a stored contribution of 30, custodial balance 40), withdrawer
user 2 at block 11. -/
theorem c7_withdraw_behaviour_witness :
    st7.funds 0 = some fund7
  ∧ ((11 ≤ fund7.end_ →
        withdraw cfg3 st7 (AccountId.user 2) 0 11 = .error .noMoreWithdrawals)
     ∧ (fund7.end_ < 11 →
        child_get_or_default (st7.tries 0) (AccountId.user 2) = 0 →
        withdraw cfg3 st7 (AccountId.user 2) 0 11 = .error .noContributionsStored)
     ∧ (fund7.end_ < 11 →
        0 < child_get_or_default (st7.tries 0) (AccountId.user 2) →
        st7.balances (fund_account_id 0)
            < child_get_or_default (st7.tries 0) (AccountId.user 2) →
        withdraw cfg3 st7 (AccountId.user 2) 0 11 = .error .currencyError
        ∧ applyResult st7 (withdraw cfg3 st7 (AccountId.user 2) 0 11) = st7)
     ∧ (fund7.end_ < 11 →
        0 < child_get_or_default (st7.tries 0) (AccountId.user 2) →
        child_get_or_default (st7.tries 0) (AccountId.user 2)
            ≤ st7.balances (fund_account_id 0) →
        obs_isOk (withdraw cfg3 st7 (AccountId.user 2) 0 11) = true
        ∧ obs_entry (withdraw cfg3 st7 (AccountId.user 2) 0 11) 0 (AccountId.user 2)
            = some none
        ∧ obs_raised (withdraw cfg3 st7 (AccountId.user 2) 0 11) 0
            = some (fund7.raised - child_get_or_default (st7.tries 0) (AccountId.user 2))
        ∧ withdraw cfg3 (applyResult st7 (withdraw cfg3 st7 (AccountId.user 2) 0 11))
              (AccountId.user 2) 0 11
            = .error .noContributionsStored)) :=
  ⟨by decide, c7_withdraw_behaviour cfg3 st7 (AccountId.user 2) 0 11 fund7 (by decide)⟩

/-- C8: with an existing campaign, `dissolve` fails with the retirement error
exactly when the current block is strictly before `end + RetirementPeriod`
(in particular never with that error from the boundary on), and from the
boundary on, provided the custodial withdrawal of `deposit + raised`
succeeds, it removes the campaign record from the registry, destroys the
whole contribution partition and emits a `Dissolved` event naming the
reporter. -/
theorem c8_dissolve_behaviour (cfg : Config) (st : PalletState) (reporter : AccountId)
    (index now : Nat) (fund : FundInfo) (hf : st.funds index = some fund) :
    (now < fund.end_ + cfg.retirementPeriod →
      dissolve cfg st reporter index now = .error .retirementPeriodNotOver)
  ∧ (fund.end_ + cfg.retirementPeriod ≤ now →
      obs_error (dissolve cfg st reporter index now)
        ≠ some DispatchError.retirementPeriodNotOver)
  ∧ (fund.end_ + cfg.retirementPeriod ≤ now →
      wrap cfg.w (fund.deposit + fund.raised) ≤ st.balances (fund_account_id index) →
      obs_isOk (dissolve cfg st reporter index now) = true
      ∧ obs_fund (dissolve cfg st reporter index now) index = some none
      ∧ obs_trie (dissolve cfg st reporter index now) index = some []
      ∧ obs_events (dissolve cfg st reporter index now)
          = some (st.events ++ [Event.Dissolved index now reporter])) := by
  refine ⟨?_, ?_, ?_⟩
  · intro h1
    have h2 : ¬ fund.end_ + cfg.retirementPeriod ≤ now := by omega
    simp [dissolve, hf, h2]
  · intro h1
    by_cases h2 : wrap cfg.w (fund.deposit + fund.raised)
        ≤ st.balances (fund_account_id index)
    · simp [dissolve, hf, h1, h2, obs_error]
    · simp [dissolve, hf, h1, h2, obs_error]
  · intro h1 h2
    refine ⟨?_, ?_, ?_, ?_⟩ <;>
      simp [dissolve, hf, h1, h2, obs_isOk, obs_fund, obs_trie, obs_events]

/-- C8, witness at a concrete input: state `st7`, reporter user 9, exactly at
the boundary block `end + RetirementPeriod = 10 + 5 = 15`, custodial balance
40 covering `deposit + raised = 40`. -/
theorem c8_dissolve_behaviour_witness :
    st7.funds 0 = some fund7
  ∧ ((15 < fund7.end_ + cfg3.retirementPeriod →
        dissolve cfg3 st7 (AccountId.user 9) 0 15 = .error .retirementPeriodNotOver)
     ∧ (fund7.end_ + cfg3.retirementPeriod ≤ 15 →
        obs_error (dissolve cfg3 st7 (AccountId.user 9) 0 15)
          ≠ some DispatchError.retirementPeriodNotOver)
     ∧ (fund7.end_ + cfg3.retirementPeriod ≤ 15 →
        wrap cfg3.w (fund7.deposit + fund7.raised) ≤ st7.balances (fund_account_id 0) →
        obs_isOk (dissolve cfg3 st7 (AccountId.user 9) 0 15) = true
        ∧ obs_fund (dissolve cfg3 st7 (AccountId.user 9) 0 15) 0 = some none
        ∧ obs_trie (dissolve cfg3 st7 (AccountId.user 9) 0 15) 0 = some []
        ∧ obs_events (dissolve cfg3 st7 (AccountId.user 9) 0 15)
            = some (st7.events ++ [Event.Dissolved 0 15 (AccountId.user 9)]))) :=
  ⟨by decide, c8_dissolve_behaviour cfg3 st7 (AccountId.user 9) 0 15 fund7 (by decide)⟩

/-- C9: the derivation functions are pure: `fund_account_id` yields the same
account on every call; the partition identifier is the hash of the fixed
prefix b"crowdfnd" concatenated with the little-endian encoding of the
campaign identifier; the pre-hash buffers of two distinct `u32` campaign
identifiers differ, so whenever the hasher is injective on them the derived
partition identifiers differ. -/
theorem c9_derivation (hash : List Nat → List Nat) (i j : Nat)
    (hi : i < 2 ^ 32) (hj : j < 2 ^ 32) (hij : i ≠ j) :
    fund_account_id i = fund_account_id i
  ∧ id_from_index hash i = hash (crowdfnd_buf i)
  ∧ crowdfnd_buf i ≠ crowdfnd_buf j
  ∧ (Function.Injective hash → id_from_index hash i ≠ id_from_index hash j) := by
  have hbuf : crowdfnd_buf i ≠ crowdfnd_buf j := by
    intro h
    apply hij
    simp only [crowdfnd_buf, crowdfnd_bytes, le_bytes, List.cons_append,
      List.nil_append, List.cons.injEq, List.cons_ne_self, and_true] at h
    omega
  exact ⟨rfl, rfl, hbuf, fun hinj h => hbuf (hinj h)⟩

/-- C9, witness at a concrete input: the identity hasher and the campaign
identifiers 0 and 1. -/
theorem c9_derivation_witness :
    (0 : Nat) < 2 ^ 32 ∧ (1 : Nat) < 2 ^ 32 ∧ (0 : Nat) ≠ 1
  ∧ (fund_account_id 0 = fund_account_id 0
     ∧ id_from_index (fun l => l) 0 = (fun l : List Nat => l) (crowdfnd_buf 0)
     ∧ crowdfnd_buf 0 ≠ crowdfnd_buf 1
     ∧ (Function.Injective (fun l : List Nat => l) →
        id_from_index (fun l => l) 0 ≠ id_from_index (fun l => l) 1)) :=
  ⟨by decide, by decide, by decide,
   c9_derivation (fun l => l) 0 1 (by decide) (by decide) (by decide)⟩

/-- C10: `contribute` never reads the stored `start` bound — replacing the
stored record's `start` by any other value changes neither the outcome nor
the written partition entry, and likewise the outcomes of `withdraw` and
`dissolve` do not depend on `start`; moreover a contribution meeting the
minimum-size, cap and ledger preconditions succeeds at any block strictly
before `end`, including blocks strictly before `start`. -/
theorem c10_start_unenforced (cfg : Config) (st : PalletState) (who : AccountId)
    (index value now s : Nat) (fund : FundInfo) (hf : st.funds index = some fund) :
    (obs_error (contribute cfg (set_start st index fund s) who index value now)
       = obs_error (contribute cfg st who index value now))
  ∧ (obs_entry (contribute cfg (set_start st index fund s) who index value now) index who
       = obs_entry (contribute cfg st who index value now) index who)
  ∧ (obs_error (withdraw cfg (set_start st index fund s) who index now)
       = obs_error (withdraw cfg st who index now))
  ∧ (obs_error (dissolve cfg (set_start st index fund s) who index now)
       = obs_error (dissolve cfg st who index now))
  ∧ (now < fund.start → cfg.minContribution ≤ value → now < fund.end_ →
      wrap cfg.w (fund.raised + value) < fund.cap → value ≤ st.balances who →
      obs_isOk (contribute cfg st who index value now) = true) := by
  refine ⟨?_, ?_, ?_, ?_, ?_⟩
  · by_cases hmin : cfg.minContribution ≤ value
    · by_cases hwin : now < fund.end_
      · by_cases hcap : wrap cfg.w (fund.raised + value) < fund.cap
        · by_cases hbal : value ≤ st.balances who
          · simp [contribute, set_start, hf, hmin, hwin, hcap, hbal, obs_error]
          · simp [contribute, set_start, hf, hmin, hwin, hcap, hbal, obs_error]
        · simp [contribute, set_start, hf, hmin, hwin, hcap, obs_error]
      · simp [contribute, set_start, hf, hmin, hwin, obs_error]
    · simp [contribute, set_start, hf, hmin, obs_error]
  · by_cases hmin : cfg.minContribution ≤ value
    · by_cases hwin : now < fund.end_
      · by_cases hcap : wrap cfg.w (fund.raised + value) < fund.cap
        · by_cases hbal : value ≤ st.balances who
          · simp [contribute, set_start, hf, hmin, hwin, hcap, hbal, obs_entry]
          · simp [contribute, set_start, hf, hmin, hwin, hcap, hbal, obs_entry]
        · simp [contribute, set_start, hf, hmin, hwin, hcap, obs_entry]
      · simp [contribute, set_start, hf, hmin, hwin, obs_entry]
    · simp [contribute, set_start, hf, hmin, obs_entry]
  · by_cases hwin : fund.end_ < now
    · by_cases hpos : 0 < child_get_or_default (st.tries index) who
      · by_cases hbal : child_get_or_default (st.tries index) who
            ≤ st.balances (fund_account_id index)
        · simp [withdraw, set_start, hf, hwin, hpos, hbal, obs_error]
        · simp [withdraw, set_start, hf, hwin, hpos, hbal, obs_error]
      · simp [withdraw, set_start, hf, hwin, hpos, obs_error]
    · simp [withdraw, set_start, hf, hwin, obs_error]
  · by_cases hret : fund.end_ + cfg.retirementPeriod ≤ now
    · by_cases hbal : wrap cfg.w (fund.deposit + fund.raised)
          ≤ st.balances (fund_account_id index)
      · simp [dissolve, set_start, hf, hret, hbal, obs_error]
      · simp [dissolve, set_start, hf, hret, hbal, obs_error]
    · simp [dissolve, set_start, hf, hret, obs_error]
  · intro hstart hmin hwin hcap hbal
    simp [contribute, hf, hmin, hwin, hcap, hbal, obs_isOk]

/-- C10, witness at a concrete input: state `st10` whose campaign starts at
block 4, a contribution of 5 by user 2 at block 2 (strictly before `start`),
and replacement start 99. -/
theorem c10_start_unenforced_witness :
    st10.funds 0 = some fund10
  ∧ ((obs_error (contribute cfg3 (set_start st10 0 fund10 99) (AccountId.user 2) 0 5 2)
        = obs_error (contribute cfg3 st10 (AccountId.user 2) 0 5 2))
     ∧ (obs_entry (contribute cfg3 (set_start st10 0 fund10 99) (AccountId.user 2) 0 5 2)
           0 (AccountId.user 2)
        = obs_entry (contribute cfg3 st10 (AccountId.user 2) 0 5 2) 0 (AccountId.user 2))
     ∧ (obs_error (withdraw cfg3 (set_start st10 0 fund10 99) (AccountId.user 2) 0 2)
        = obs_error (withdraw cfg3 st10 (AccountId.user 2) 0 2))
     ∧ (obs_error (dissolve cfg3 (set_start st10 0 fund10 99) (AccountId.user 2) 0 2)
        = obs_error (dissolve cfg3 st10 (AccountId.user 2) 0 2))
     ∧ ((2 : Nat) < fund10.start → cfg3.minContribution ≤ 5 → (2 : Nat) < fund10.end_ →
        wrap cfg3.w (fund10.raised + 5) < fund10.cap → 5 ≤ st10.balances (AccountId.user 2) →
        obs_isOk (contribute cfg3 st10 (AccountId.user 2) 0 5 2) = true)) :=
  ⟨by decide, c10_start_unenforced cfg3 st10 (AccountId.user 2) 0 5 2 99 fund10 (by decide)⟩

end SimpleCrowdfund
